import Mathlib

/-!
Verification of the Portal state store of the apechain-bridge repository
(src/lib/store/usePortalStore.ts), shallowly embedded in Lean 4.

The store is a record of bridge/swap state together with action functions
that each produce a new state snapshot. Actions are embedded as pure
functions `PortalState → args → PortalState`, translated branch by branch
from the TypeScript source. Collaborator classes that are referenced by
the store but whose files are not part of the repository slice
(`TokenTransactionData`, `BridgeTransactionData`, `isTokenPairStable`,
`secondsToReadableTime`, the warning constants) are modelled from the
specification; each such definition carries a doc comment saying so.
-/

namespace PortalStoreModel

/-- Modelled from the spec: a `TokenInfo` record from the token-metadata
provider ("at minimum: chain identifier, contract/native address, decimals,
symbol"); the store only reads `address` (and the defaults carry a chain),
so we keep those two fields. -/
structure TokenInfo where
  chainId : Nat
  address : String
  deriving DecidableEq, Repr

/-- Modelled from the spec: `TokenTransactionData` (class file absent from
the slice) "wraps a token descriptor, a human-entered amount (string, to
preserve exact user input formatting), and a derived USD-value string". -/
structure TokenTransactionData where
  token : TokenInfo
  amount : String := ""
  amountUsd : String := ""
  deriving DecidableEq, Repr

/-- Modelled from the spec: the two-argument constructor
`new TokenTransactionData(token, amount)` used by `setSourceToken` /
`setDestinationToken`: carries the new token and the given amount, with a
fresh (empty) derived USD string. -/
def mkTokenTransactionData (t : TokenInfo) (amount : String) :
    TokenTransactionData :=
  { token := t, amount := amount, amountUsd := "" }

/-- Modelled from the spec: `BridgeTransactionData` — "transaction-wide
fields — slippage percentage, application fee, gas fee, their USD
equivalents, price-impact warning (optional message), time warning
(optional message), estimated transaction time, source-chain gas-token USD
value". The token-approval hash lives on the top-level state in the store
source, so it is kept there. -/
structure BridgeTransactionData where
  slippagePercentage : ℚ
  applicationFee : ℚ := 0
  applicationFeeUsd : ℚ := 0
  gasFee : ℚ := 0
  gasFeeUsd : ℚ := 0
  priceImpactWarning : Option String := none
  timeWarning : Option String := none
  estimatedTxTime : Option ℚ := none
  sourceChainGasTokenUsdValue : ℚ := 0
  deriving DecidableEq, Repr

/-- Modelled from the spec: the `DEFAULT_SLIPPAGE` constant of
`BridgeTransactionData` ("slippage starts at a fixed default constant").
The concrete value is not in the slice; any fixed rational works. -/
def BridgeTransactionData.DEFAULT_SLIPPAGE : ℚ := 1

/-- Modelled from the spec: the `STABLE_SWAP_SLIPPAGE` constant ("when the
active token pair is a stable/stable pair, slippage is pinned to a fixed
minimum constant"). The concrete value is not in the slice. -/
def BridgeTransactionData.STABLE_SWAP_SLIPPAGE : ℚ := 1 / 10

/-- Modelled from the spec: `new BridgeTransactionData()` — fresh
transaction data with the default slippage. -/
def BridgeTransactionData.init : BridgeTransactionData :=
  { slippagePercentage := BridgeTransactionData.DEFAULT_SLIPPAGE }

/-- Modelled from the spec: the own
`resetTransactionData()` of the sub-object — "resets transaction-data fields (fees,
warnings, slippage-independent)": fees, USD fees, warnings, the time
estimate and the gas-token USD value return to their initial values while
slippage is left alone. -/
def BridgeTransactionData.resetTransactionData (b : BridgeTransactionData) :
    BridgeTransactionData :=
  { b with
    applicationFee := 0
    applicationFeeUsd := 0
    gasFee := 0
    gasFeeUsd := 0
    priceImpactWarning := none
    timeWarning := none
    estimatedTxTime := none
    sourceChainGasTokenUsdValue := 0 }

/-- Modelled from the spec: the `resetSlippage()` of the sub-object — "resets
to the default constant". -/
def BridgeTransactionData.resetSlippage (b : BridgeTransactionData) :
    BridgeTransactionData :=
  { b with slippagePercentage := BridgeTransactionData.DEFAULT_SLIPPAGE }

/-- Modelled from the spec: the set of recognized stablecoin addresses
used by the stable-pair classifier. The concrete list is not in the slice;
a small fixed list suffices for the behavior of the store, which only queries
membership. -/
def stableTokenAddresses : List String := ["USDC", "USDT", "DAI"]

/-- Modelled from the spec: whether one address is a recognized
stablecoin. -/
def isStableToken (a : String) : Bool := stableTokenAddresses.contains a

/-- Modelled from the spec: the stable-pair classifier — "given two token
addresses, returns whether both are recognized stablecoins
(order-independent)". -/
def isTokenPairStable (a b : String) : Bool := isStableToken a && isStableToken b

/-- Modelled from the spec: the duration formatter — "converts a count of
seconds into a human-readable phrase for the time-warning message". -/
def secondsToReadableTime (s : ℚ) : String :=
  if s < 60 then toString s ++ " seconds"
  else toString (Rat.floor (s / 60)) ++ " minutes and "
    ++ toString (s - 60 * (Rat.floor (s / 60) : ℚ)) ++ " seconds"

/-- Modelled from the spec: `WARNING_THRESHOLD_PRICE_IMPACT` — the fixed
price-impact threshold; the testable properties fix it at 5.0. -/
def WARNING_THRESHOLD_PRICE_IMPACT : ℚ := 5

/-- Modelled from the spec: `WARNING_THRESHOLD_FIVE_MINUTES` — the fixed
time threshold of five minutes (300 seconds). -/
def WARNING_THRESHOLD_FIVE_MINUTES : ℚ := 300

/-- Modelled from the spec: `WARNING_PRICE_IMPACT` — "a warning payload
derived from the impact value via an external formatter"; renders a
non-empty message mentioning the impact value. -/
def WARNING_PRICE_IMPACT (p : ℚ) : String :=
  "The price impact of this transaction is " ++ toString p ++ "%."

/-- `InputType` enum: which side the user touched last. -/
inductive InputType where
  | Source
  | Destination
  deriving DecidableEq, Repr

/-- The `PortalState` record of usePortalStore.ts (the data part of the
store; the action closures become the functions below). -/
structure PortalState where
  sourceToken : TokenTransactionData
  destinationToken : TokenTransactionData
  stashedToken : Option TokenTransactionData
  bridgeTransactionData : BridgeTransactionData
  tokenApprovalTxHash : Option String
  hasUserUpdatedTokens : Bool
  lastChanged : InputType
  nonStableSlippage : ℚ
  deriving DecidableEq, Repr

/-- Modelled from the spec: `ApeCoinMainnetEthereum`, the default bridge
source token (the APE ERC-20 token on Ethereum mainnet, chain id 1). -/
def ApeCoinMainnetEthereum : TokenInfo := { chainId := 1, address := "APE-ETH" }

/-- Modelled from the spec: `getNativeTokenInfoOrFail(ChainId.APE)` — the
native token of the ApeChain, the default bridge destination token. -/
def apeChainNativeToken : TokenInfo :=
  { chainId := 33139, address := "NATIVE-APE" }

def defaultBridgeSourceToken : TokenInfo := ApeCoinMainnetEthereum

def defaultBridgeDestinationToken : TokenInfo := apeChainNativeToken

/-- The initial store snapshot built by `create` in usePortalStore.ts:
default tokens with empty amounts, fresh transaction data,
`lastChanged = Source`, `hasUserUpdatedTokens = false`, and
`nonStableSlippage = DEFAULT_SLIPPAGE`. -/
def initialPortalState : PortalState :=
  { sourceToken := { token := defaultBridgeSourceToken }
    destinationToken := { token := defaultBridgeDestinationToken }
    stashedToken := none
    bridgeTransactionData := BridgeTransactionData.init
    tokenApprovalTxHash := none
    hasUserUpdatedTokens := false
    lastChanged := InputType.Source
    nonStableSlippage := BridgeTransactionData.DEFAULT_SLIPPAGE }

/-- Modelled from the spec: the JS `Number(string)` conversion applied to
fee strings ("parses fee strings to numeric fee"). Digits with an optional
decimal point; other shapes map to 0 (the claims under study do not depend on
the malformed cases). -/
def jsNumber (s : String) : ℚ :=
  let digitsToNat : List Char → Nat :=
    fun l => l.foldl (fun n c => n * 10 + (c.toNat - 48)) 0
  match s.splitOn "." with
  | [w] => (digitsToNat w.data : ℚ)
  | [w, f] =>
    (digitsToNat w.data : ℚ) + (digitsToNat f.data : ℚ) / ((10 : ℚ) ^ f.length)
  | _ => 0

/-! ## Store actions, translated from usePortalStore.ts -/

/-- `setSlippageForStableSwap` (lines 77-86): optionally snapshot the
current slippage into `nonStableSlippage`, then pin slippage to
`STABLE_SWAP_SLIPPAGE`. -/
def setSlippageForStableSwap (s : PortalState) (shouldStoreSlippage : Bool) :
    PortalState :=
  let s1 :=
    if shouldStoreSlippage then
      { s with nonStableSlippage := s.bridgeTransactionData.slippagePercentage }
    else s
  { s1 with
    bridgeTransactionData :=
      { s1.bridgeTransactionData with
        slippagePercentage := BridgeTransactionData.STABLE_SWAP_SLIPPAGE } }

/-- `setSlippageForNonStableSwap` (lines 88-96): restore slippage from
`nonStableSlippage` when the latter is truthy (nonzero) and differs from
the current slippage. -/
def setSlippageForNonStableSwap (s : PortalState) : PortalState :=
  if s.nonStableSlippage ≠ 0 ∧
      s.bridgeTransactionData.slippagePercentage ≠ s.nonStableSlippage then
    { s with
      bridgeTransactionData :=
        { s.bridgeTransactionData with
          slippagePercentage := s.nonStableSlippage } }
  else s

/-- `setStashedToken` (lines 103-108). -/
def setStashedToken (s : PortalState) (t : Option TokenTransactionData) :
    PortalState :=
  { s with stashedToken := t }

/-- `setHasUserUpdatedTokens` (lines 115-120). -/
def setHasUserUpdatedTokens (s : PortalState) : PortalState :=
  { s with hasUserUpdatedTokens := true }

/-- `resetTransactionData` (lines 122-133): reset the sub-object, then
zero the amount of the side that was NOT last changed. -/
def resetTransactionData (s : PortalState) : PortalState :=
  let s1 :=
    { s with
      bridgeTransactionData := s.bridgeTransactionData.resetTransactionData }
  if s1.lastChanged = InputType.Source then
    { s1 with destinationToken := { s1.destinationToken with amount := "" } }
  else
    { s1 with sourceToken := { s1.sourceToken with amount := "" } }

/-- `resetTransactionDataAndAmounts` (lines 135-142): reset the sub-object
and zero both amounts. -/
def resetTransactionDataAndAmounts (s : PortalState) : PortalState :=
  { s with
    bridgeTransactionData := s.bridgeTransactionData.resetTransactionData
    sourceToken := { s.sourceToken with amount := "" }
    destinationToken := { s.destinationToken with amount := "" } }

/-- `updateTransactionData` (lines 143-160): source amount only when
`lastChanged !== Source`; destination amount always; both fee fields and
their USD twins from the same parsed inputs. -/
def updateTransactionData (s : PortalState)
    (sourceAmount destAmount bridgeFee gasFee : String) : PortalState :=
  let s1 :=
    if s.lastChanged ≠ InputType.Source then
      { s with sourceToken := { s.sourceToken with amount := sourceAmount } }
    else s
  { s1 with
    destinationToken := { s1.destinationToken with amount := destAmount }
    bridgeTransactionData :=
      { s1.bridgeTransactionData with
        applicationFee := jsNumber bridgeFee
        applicationFeeUsd := jsNumber bridgeFee
        gasFee := jsNumber gasFee
        gasFeeUsd := jsNumber gasFee } }

/-- `setSourceChainGasTokenUsdValue` (lines 161-166). -/
def setSourceChainGasTokenUsdValue (s : PortalState) (value : ℚ) :
    PortalState :=
  { s with
    bridgeTransactionData :=
      { s.bridgeTransactionData with sourceChainGasTokenUsdValue := value } }

/-- `setSlippagePercentage` (lines 167-173): sets the active slippage and
the `nonStableSlippage` restore point. -/
def setSlippagePercentage (s : PortalState) (slippage : ℚ) : PortalState :=
  { s with
    bridgeTransactionData :=
      { s.bridgeTransactionData with slippagePercentage := slippage }
    nonStableSlippage := slippage }

/-- `resetSlippage` (lines 174-179). -/
def resetSlippage (s : PortalState) : PortalState :=
  { s with bridgeTransactionData := s.bridgeTransactionData.resetSlippage }

/-- `setPriceImpactWarning` (lines 180-190): `!priceImpact` (absent or
zero) or below the threshold clears the warning; otherwise the warning is
the formatted payload. -/
def setPriceImpactWarning (s : PortalState) (priceImpact : Option ℚ) :
    PortalState :=
  match priceImpact with
  | none =>
    { s with
      bridgeTransactionData :=
        { s.bridgeTransactionData with priceImpactWarning := none } }
  | some p =>
    if p = 0 ∨ p < WARNING_THRESHOLD_PRICE_IMPACT then
      { s with
        bridgeTransactionData :=
          { s.bridgeTransactionData with priceImpactWarning := none } }
    else
      { s with
        bridgeTransactionData :=
          { s.bridgeTransactionData with
            priceImpactWarning := some (WARNING_PRICE_IMPACT p) } }

/-- `setTxTimeWarning` (lines 191-206): always record the estimate;
`!estimatedTxTime` (absent or zero) or below five minutes clears the
warning message, otherwise a readable duration is formatted into it. -/
def setTxTimeWarning (s : PortalState) (estimatedTxTime : Option ℚ) :
    PortalState :=
  let b0 := { s.bridgeTransactionData with estimatedTxTime := estimatedTxTime }
  match estimatedTxTime with
  | none => { s with bridgeTransactionData := { b0 with timeWarning := none } }
  | some t =>
    if t = 0 ∨ t < WARNING_THRESHOLD_FIVE_MINUTES then
      { s with bridgeTransactionData := { b0 with timeWarning := none } }
    else
      { s with
        bridgeTransactionData :=
          { b0 with
            timeWarning :=
              some ("The estimated waiting time to bridge is "
                ++ secondsToReadableTime t ++ ".") } }

/-- `setTokenApprovalTxHash` (lines 207-212). -/
def setTokenApprovalTxHash (s : PortalState) (txHash : String) : PortalState :=
  { s with tokenApprovalTxHash := some txHash }

/-- `setSourceTokenAmount` (lines 213-219). -/
def setSourceTokenAmount (s : PortalState) (amount : String) : PortalState :=
  { s with
    sourceToken := { s.sourceToken with amount := amount }
    lastChanged := InputType.Source }

/-- `setSourceTokenAmountUsd` (lines 220-225). -/
def setSourceTokenAmountUsd (s : PortalState) (amount : String) : PortalState :=
  { s with sourceToken := { s.sourceToken with amountUsd := amount } }

/-- `setDestinationTokenAmount` (lines 226-232). -/
def setDestinationTokenAmount (s : PortalState) (amount : String) :
    PortalState :=
  { s with
    destinationToken := { s.destinationToken with amount := amount }
    lastChanged := InputType.Destination }

/-- `setDestinationTokenAmountUsd` (lines 233-238). -/
def setDestinationTokenAmountUsd (s : PortalState) (amount : String) :
    PortalState :=
  { s with destinationToken := { s.destinationToken with amountUsd := amount } }

/-- `setSourceToken` (lines 239-261): replace the source slot keeping its
amount, then adjust slippage according to the stability of the new and the
previous pair. -/
def setSourceToken (s : PortalState) (token : TokenInfo) : PortalState :=
  let previousSourceTokenAddress := s.sourceToken.token.address
  let s1 :=
    { s with sourceToken := mkTokenTransactionData token s.sourceToken.amount }
  if isTokenPairStable token.address s1.destinationToken.token.address then
    let wasPreviousPairStable :=
      isTokenPairStable previousSourceTokenAddress
        s1.destinationToken.token.address
    setSlippageForStableSwap s1 (!wasPreviousPairStable)
  else
    setSlippageForNonStableSwap s1

/-- `setDestinationToken` (lines 262-282): symmetric to `setSourceToken`. -/
def setDestinationToken (s : PortalState) (token : TokenInfo) : PortalState :=
  let previousDestTokenAddress := s.destinationToken.token.address
  let s1 :=
    { s with
      destinationToken :=
        mkTokenTransactionData token s.destinationToken.amount }
  if isTokenPairStable token.address s1.sourceToken.token.address then
    let wasPreviousPairStable :=
      isTokenPairStable previousDestTokenAddress s1.sourceToken.token.address
    setSlippageForStableSwap s1 (!wasPreviousPairStable)
  else
    setSlippageForNonStableSwap s1

/-- `swapSourceDestination` (lines 283-292). -/
def swapSourceDestination (s : PortalState) : PortalState :=
  { s with
    sourceToken := s.destinationToken
    destinationToken := s.sourceToken
    hasUserUpdatedTokens := true }

/-- `maxOutSourceToken` (lines 293-299). -/
def maxOutSourceToken (s : PortalState) (userBalance : String) : PortalState :=
  { s with
    sourceToken := { s.sourceToken with amount := userBalance }
    lastChanged := InputType.Source }

/-! ## The action alphabet of the store

One constructor per action of the `PortalActions` interface, so that
claims quantifying over "every store action" can be stated. -/

inductive Action where
  | setSourceToken (t : TokenInfo)
  | setSourceChainGasTokenUsdValue (v : ℚ)
  | setSourceTokenAmount (a : String)
  | setSourceTokenAmountUsd (a : String)
  | maxOutSourceToken (b : String)
  | setDestinationToken (t : TokenInfo)
  | setDestinationTokenAmount (a : String)
  | setDestinationTokenAmountUsd (a : String)
  | swapSourceDestination
  | setPriceImpactWarning (p : Option ℚ)
  | setTxTimeWarning (t : Option ℚ)
  | setTokenApprovalTxHash (h : String)
  | setStashedToken (t : Option TokenTransactionData)
  | updateTransactionData (sourceAmount destAmount bridgeFee gasFee : String)
  | setSlippagePercentage (x : ℚ)
  | resetSlippage
  | resetTransactionData
  | resetTransactionDataAndAmounts
  | setHasUserUpdatedTokens
  deriving DecidableEq, Repr

/-- Interpret an action as the corresponding state transformer. -/
def Action.apply (a : Action) (s : PortalState) : PortalState :=
  match a with
  | .setSourceToken t => PortalStoreModel.setSourceToken s t
  | .setSourceChainGasTokenUsdValue v =>
    PortalStoreModel.setSourceChainGasTokenUsdValue s v
  | .setSourceTokenAmount a => PortalStoreModel.setSourceTokenAmount s a
  | .setSourceTokenAmountUsd a => PortalStoreModel.setSourceTokenAmountUsd s a
  | .maxOutSourceToken b => PortalStoreModel.maxOutSourceToken s b
  | .setDestinationToken t => PortalStoreModel.setDestinationToken s t
  | .setDestinationTokenAmount a =>
    PortalStoreModel.setDestinationTokenAmount s a
  | .setDestinationTokenAmountUsd a =>
    PortalStoreModel.setDestinationTokenAmountUsd s a
  | .swapSourceDestination => PortalStoreModel.swapSourceDestination s
  | .setPriceImpactWarning p => PortalStoreModel.setPriceImpactWarning s p
  | .setTxTimeWarning t => PortalStoreModel.setTxTimeWarning s t
  | .setTokenApprovalTxHash h => PortalStoreModel.setTokenApprovalTxHash s h
  | .setStashedToken t => PortalStoreModel.setStashedToken s t
  | .updateTransactionData sa da bf gf =>
    PortalStoreModel.updateTransactionData s sa da bf gf
  | .setSlippagePercentage x => PortalStoreModel.setSlippagePercentage s x
  | .resetSlippage => PortalStoreModel.resetSlippage s
  | .resetTransactionData => PortalStoreModel.resetTransactionData s
  | .resetTransactionDataAndAmounts =>
    PortalStoreModel.resetTransactionDataAndAmounts s
  | .setHasUserUpdatedTokens => PortalStoreModel.setHasUserUpdatedTokens s

/-- The two actions that latch `hasUserUpdatedTokens` to true
(`swapSourceDestination` and `setHasUserUpdatedTokens`). -/
def Action.latchesTokens : Action → Bool
  | .swapSourceDestination => true
  | .setHasUserUpdatedTokens => true
  | _ => false

end PortalStoreModel

namespace PortalStoreModel

/-! ## Helper lemmas -/

/-- Closed form of `setSlippageForStableSwap`: the snapshot into
`nonStableSlippage` happens exactly when requested, and slippage is pinned
to the stable constant. -/
lemma setSlippageForStableSwap_eq (s : PortalState) (b : Bool) :
    setSlippageForStableSwap s b =
      { s with
        nonStableSlippage :=
          if b then s.bridgeTransactionData.slippagePercentage
          else s.nonStableSlippage
        bridgeTransactionData :=
          { s.bridgeTransactionData with
            slippagePercentage :=
              BridgeTransactionData.STABLE_SWAP_SLIPPAGE } } := by
  cases b <;> rfl

/-- Closed form of `setSlippageForNonStableSwap`: slippage is restored from
`nonStableSlippage` exactly when the latter is nonzero and differs from the
current slippage. -/
lemma setSlippageForNonStableSwap_eq (s : PortalState) :
    setSlippageForNonStableSwap s =
      { s with
        bridgeTransactionData :=
          { s.bridgeTransactionData with
            slippagePercentage :=
              if s.nonStableSlippage ≠ 0 ∧
                  s.bridgeTransactionData.slippagePercentage ≠
                    s.nonStableSlippage then
                s.nonStableSlippage
              else s.bridgeTransactionData.slippagePercentage } } := by
  unfold setSlippageForNonStableSwap
  split_ifs <;> rfl

/-- How each action of the store changes `lastChanged`: the two amount
setters and `maxOutSourceToken` write it, every other action keeps it. -/
lemma lastChanged_apply (a : Action) (s : PortalState) :
    (a.apply s).lastChanged =
      (match a with
       | .setSourceTokenAmount _ => InputType.Source
       | .maxOutSourceToken _ => InputType.Source
       | .setDestinationTokenAmount _ => InputType.Destination
       | _ => s.lastChanged) := by
  cases a
  all_goals try rfl
  all_goals
    simp only [Action.apply, setSourceToken, setDestinationToken,
      setSlippageForStableSwap_eq, setSlippageForNonStableSwap_eq,
      setPriceImpactWarning, setTxTimeWarning, updateTransactionData,
      resetTransactionData]
  all_goals try (split_ifs <;> rfl)
  all_goals rename_i o
  all_goals cases o
  all_goals dsimp only
  all_goals (split_ifs <;> rfl)

/-- How each action of the store changes `hasUserUpdatedTokens`: the flag
is or-ed with `Action.latchesTokens`, so only `swapSourceDestination` and
`setHasUserUpdatedTokens` can raise it and no action lowers it. -/
lemma hasUserUpdatedTokens_apply (a : Action) (s : PortalState) :
    (a.apply s).hasUserUpdatedTokens =
      (s.hasUserUpdatedTokens || a.latchesTokens) := by
  cases a
  all_goals simp only [Action.apply, Action.latchesTokens, Bool.or_true,
    Bool.or_false]
  all_goals try rfl
  all_goals
    simp only [setSourceToken, setDestinationToken,
      setSlippageForStableSwap_eq, setSlippageForNonStableSwap_eq,
      setPriceImpactWarning, setTxTimeWarning, updateTransactionData,
      resetTransactionData]
  all_goals try (split_ifs <;> rfl)
  all_goals rename_i o
  all_goals cases o
  all_goals dsimp only
  all_goals (split_ifs <;> rfl)

/-- A three-part string concatenation with a non-empty first part is
non-empty. -/
lemma string_append3_ne_empty (a b c : String) (h : a ≠ "") :
    a ++ b ++ c ≠ "" := by
  intro hc
  have hlen := congrArg String.length hc
  simp only [String.length_append] at hlen
  have h0 : ("" : String).length = 0 := rfl
  rw [h0] at hlen
  have ha : a.length = 0 := by omega
  apply h
  cases a with
  | mk data =>
    cases data with
    | nil => rfl
    | cons x xs => simp [String.length] at ha

/-! ## Claim theorems -/

/-- C1: after `setSourceToken t` (resp. `setDestinationToken t`), if the
new pair (the new token against the token in the other slot) is
stable/stable then slippage equals `STABLE_SWAP_SLIPPAGE`, and
`nonStableSlippage` received the pre-call slippage exactly when the
previous pair was not stable/stable; if the new pair is not stable/stable,
slippage becomes `nonStableSlippage` exactly when that value is nonzero
and differs from the current slippage, and is unchanged otherwise. -/
theorem slippage_after_setToken (s : PortalState) (t : TokenInfo) :
    ((setSourceToken s t).bridgeTransactionData.slippagePercentage =
      if isTokenPairStable t.address s.destinationToken.token.address then
        BridgeTransactionData.STABLE_SWAP_SLIPPAGE
      else if s.nonStableSlippage ≠ 0 ∧
          s.bridgeTransactionData.slippagePercentage ≠
            s.nonStableSlippage then
        s.nonStableSlippage
      else s.bridgeTransactionData.slippagePercentage) ∧
    ((setSourceToken s t).nonStableSlippage =
      if isTokenPairStable t.address s.destinationToken.token.address ∧
          ¬ isTokenPairStable s.sourceToken.token.address
            s.destinationToken.token.address then
        s.bridgeTransactionData.slippagePercentage
      else s.nonStableSlippage) ∧
    ((setDestinationToken s t).bridgeTransactionData.slippagePercentage =
      if isTokenPairStable t.address s.sourceToken.token.address then
        BridgeTransactionData.STABLE_SWAP_SLIPPAGE
      else if s.nonStableSlippage ≠ 0 ∧
          s.bridgeTransactionData.slippagePercentage ≠
            s.nonStableSlippage then
        s.nonStableSlippage
      else s.bridgeTransactionData.slippagePercentage) ∧
    ((setDestinationToken s t).nonStableSlippage =
      if isTokenPairStable t.address s.sourceToken.token.address ∧
          ¬ isTokenPairStable s.destinationToken.token.address
            s.sourceToken.token.address then
        s.bridgeTransactionData.slippagePercentage
      else s.nonStableSlippage) := by
  refine ⟨?_, ?_, ?_, ?_⟩ <;>
    simp only [setSourceToken, setDestinationToken, setSlippageForStableSwap,
      setSlippageForNonStableSwap, mkTokenTransactionData] <;>
    split_ifs <;>
    simp_all

/-- C2: `updateTransactionData` sets the destination amount
unconditionally, sets the source amount exactly when `lastChanged` is not
`Source`, and writes the parsed bridge fee into both `applicationFee` and
`applicationFeeUsd` and the parsed gas fee into both `gasFee` and
`gasFeeUsd`. -/
theorem updateTransactionData_spec (s : PortalState)
    (sa da bf gf : String) :
    (updateTransactionData s sa da bf gf).destinationToken.amount = da ∧
    (updateTransactionData s sa da bf gf).sourceToken.amount =
      (if s.lastChanged = InputType.Source then s.sourceToken.amount
       else sa) ∧
    (updateTransactionData s sa da bf
        gf).bridgeTransactionData.applicationFee = jsNumber bf ∧
    (updateTransactionData s sa da bf
        gf).bridgeTransactionData.applicationFeeUsd = jsNumber bf ∧
    (updateTransactionData s sa da bf gf).bridgeTransactionData.gasFee =
      jsNumber gf ∧
    (updateTransactionData s sa da bf gf).bridgeTransactionData.gasFeeUsd =
      jsNumber gf := by
  refine ⟨?_, ?_, ?_, ?_, ?_, ?_⟩ <;>
    simp only [updateTransactionData] <;> split_ifs <;> simp_all

/-- A state whose last-changed side is `Destination`, used to exhibit that
`maxOutSourceToken` writes `lastChanged`. -/
def lastChangedDestState : PortalState :=
  { initialPortalState with lastChanged := InputType.Destination }

/-- C3 counterexample: `maxOutSourceToken` also updates `lastChanged`
(here from `Destination` to `Source`), so the two amount setters are not
the only actions that update it. -/
theorem maxOutSourceToken_changes_lastChanged :
    ¬ ((maxOutSourceToken lastChangedDestState "5").lastChanged =
        lastChangedDestState.lastChanged) := by
  decide

/-- C3 (amended): `setSourceTokenAmount` sets the source amount and
`lastChanged = Source`, `setDestinationTokenAmount` sets the destination
amount and `lastChanged = Destination`, and the only actions that update
`lastChanged` are these two together with `maxOutSourceToken` (which sets
it to `Source`); every other action leaves it unchanged. -/
theorem lastChanged_updaters (a : Action) (s : PortalState) :
    (a.apply s).lastChanged =
      (match a with
       | .setSourceTokenAmount _ => InputType.Source
       | .maxOutSourceToken _ => InputType.Source
       | .setDestinationTokenAmount _ => InputType.Destination
       | _ => s.lastChanged) ∧
    (∀ x,
      (Action.apply (.setSourceTokenAmount x) s).sourceToken.amount = x) ∧
    (∀ x,
      (Action.apply (.setDestinationTokenAmount x) s).destinationToken.amount
        = x) :=
  ⟨lastChanged_apply a s, fun _ => rfl, fun _ => rfl⟩

/-- C4: `resetTransactionData` applies the sub-object reset and zeroes
exactly the amount opposite `lastChanged`, while
`resetTransactionDataAndAmounts` applies the same reset and zeroes both
amounts. -/
theorem resetTransactionData_spec (s : PortalState) :
    (resetTransactionData s).bridgeTransactionData =
      s.bridgeTransactionData.resetTransactionData ∧
    (resetTransactionData s).destinationToken.amount =
      (if s.lastChanged = InputType.Source then ""
       else s.destinationToken.amount) ∧
    (resetTransactionData s).sourceToken.amount =
      (if s.lastChanged = InputType.Source then s.sourceToken.amount
       else "") ∧
    (resetTransactionDataAndAmounts s).bridgeTransactionData =
      s.bridgeTransactionData.resetTransactionData ∧
    (resetTransactionDataAndAmounts s).sourceToken.amount = "" ∧
    (resetTransactionDataAndAmounts s).destinationToken.amount = "" := by
  refine ⟨?_, ?_, ?_, rfl, rfl, rfl⟩ <;>
    simp only [resetTransactionData] <;> split_ifs <;> rfl

/-- C5: applying `swapSourceDestination` twice restores the two token
slots and every other field, except that `hasUserUpdatedTokens` latches
true; one application exchanges the two slots wholesale and touches
nothing else besides the latch. -/
theorem swapSourceDestination_spec (s : PortalState) :
    swapSourceDestination (swapSourceDestination s) =
      { s with hasUserUpdatedTokens := true } ∧
    (swapSourceDestination s).sourceToken = s.destinationToken ∧
    (swapSourceDestination s).destinationToken = s.sourceToken ∧
    (swapSourceDestination s).hasUserUpdatedTokens = true ∧
    (swapSourceDestination s).stashedToken = s.stashedToken ∧
    (swapSourceDestination s).bridgeTransactionData =
      s.bridgeTransactionData ∧
    (swapSourceDestination s).tokenApprovalTxHash = s.tokenApprovalTxHash ∧
    (swapSourceDestination s).lastChanged = s.lastChanged ∧
    (swapSourceDestination s).nonStableSlippage = s.nonStableSlippage :=
  ⟨rfl, rfl, rfl, rfl, rfl, rfl, rfl, rfl, rfl⟩

/-- C6: `setPriceImpactWarning` clears the warning exactly when the input
is absent or below the threshold; otherwise the warning is the non-empty
formatted payload mentioning the impact value; concretely, 4.9 clears the
warning (the 6.0 instance is in the witness). -/
theorem setPriceImpactWarning_spec (s : PortalState) (pi : Option ℚ) :
    ((setPriceImpactWarning s pi).bridgeTransactionData.priceImpactWarning =
        none ↔
      pi = none ∨ ∃ p, pi = some p ∧ p < WARNING_THRESHOLD_PRICE_IMPACT) ∧
    (∀ p, pi = some p → WARNING_THRESHOLD_PRICE_IMPACT ≤ p →
      (setPriceImpactWarning s pi).bridgeTransactionData.priceImpactWarning
          = some (WARNING_PRICE_IMPACT p) ∧
      WARNING_PRICE_IMPACT p ≠ "" ∧
      ∃ pre post, WARNING_PRICE_IMPACT p = pre ++ toString p ++ post) ∧
    (setPriceImpactWarning s
        (some (49 / 10))).bridgeTransactionData.priceImpactWarning =
      none := by
  refine ⟨?_, ?_, ?_⟩
  · cases pi with
    | none => simp [setPriceImpactWarning]
    | some p =>
      simp only [setPriceImpactWarning]
      split_ifs with h
      · simp only [reduceCtorEq, Option.some.injEq, false_or]
        constructor
        · intro _
          exact ⟨p, rfl, by
            rcases h with h | h
            · rw [h]; norm_num [WARNING_THRESHOLD_PRICE_IMPACT]
            · exact h⟩
        · intro _; trivial
      · push_neg at h
        simp only [reduceCtorEq, Option.some.injEq, false_or, false_iff,
          not_exists, not_and]
        intro q hq
        subst hq
        exact not_lt.mpr h.2
  · intro p hp hle
    subst hp
    have hcond : ¬ (p = 0 ∨ p < WARNING_THRESHOLD_PRICE_IMPACT) := by
      rintro (h0 | hlt)
      · rw [h0] at hle; norm_num [WARNING_THRESHOLD_PRICE_IMPACT] at hle
      · exact absurd hle (not_le.mpr hlt)
    refine ⟨?_, ?_, "The price impact of this transaction is ", "%.", rfl⟩
    · simp only [setPriceImpactWarning]
      rw [if_neg hcond]
    · exact string_append3_ne_empty _ _ _ (by decide)
  · simp only [setPriceImpactWarning]
    split_ifs with h
    · rfl
    · exact absurd (Or.inr (by norm_num [WARNING_THRESHOLD_PRICE_IMPACT])) h

/-- C6 witness: at impact 6.0 (threshold 5.0) a non-empty warning
mentioning the value 6 is set. -/
theorem setPriceImpactWarning_spec_witness :
    (setPriceImpactWarning initialPortalState
        (some 6)).bridgeTransactionData.priceImpactWarning =
      some (WARNING_PRICE_IMPACT 6) ∧
    WARNING_PRICE_IMPACT 6 ≠ "" ∧
    ∃ pre post, WARNING_PRICE_IMPACT 6 = pre ++ toString (6 : ℚ) ++ post :=
  (setPriceImpactWarning_spec initialPortalState (some 6)).2.1 6 rfl
    (by norm_num [WARNING_THRESHOLD_PRICE_IMPACT])

/-- C7: `setTxTimeWarning` always records the estimate; the message is
cleared exactly when the estimate is absent or below 300 seconds, and
otherwise the message contains the readable rendering of the duration;
concretely, 250 clears the message (the 301 instance is in the
witness). -/
theorem setTxTimeWarning_spec (s : PortalState) (et : Option ℚ) :
    (setTxTimeWarning s et).bridgeTransactionData.estimatedTxTime = et ∧
    ((setTxTimeWarning s et).bridgeTransactionData.timeWarning = none ↔
      et = none ∨ ∃ t, et = some t ∧ t < WARNING_THRESHOLD_FIVE_MINUTES) ∧
    (∀ t, et = some t → WARNING_THRESHOLD_FIVE_MINUTES ≤ t →
      ∃ m,
        (setTxTimeWarning s et).bridgeTransactionData.timeWarning =
          some m ∧
        m ≠ "" ∧ ∃ pre post, m = pre ++ secondsToReadableTime t ++ post) ∧
    (setTxTimeWarning s (some 250)).bridgeTransactionData.timeWarning =
      none := by
  refine ⟨?_, ?_, ?_, ?_⟩
  · cases et with
    | none => rfl
    | some t =>
      dsimp only [setTxTimeWarning]
      split_ifs <;> rfl
  · cases et with
    | none => simp [setTxTimeWarning]
    | some t =>
      dsimp only [setTxTimeWarning]
      split_ifs with h
      · simp only [reduceCtorEq, Option.some.injEq, false_or]
        constructor
        · intro _
          exact ⟨t, rfl, by
            rcases h with h | h
            · rw [h]; norm_num [WARNING_THRESHOLD_FIVE_MINUTES]
            · exact h⟩
        · intro _; trivial
      · push_neg at h
        simp only [reduceCtorEq, Option.some.injEq, false_or, false_iff,
          not_exists, not_and]
        intro q hq
        subst hq
        exact not_lt.mpr h.2
  · intro t ht hle
    subst ht
    have hcond : ¬ (t = 0 ∨ t < WARNING_THRESHOLD_FIVE_MINUTES) := by
      rintro (h0 | hlt)
      · rw [h0] at hle; norm_num [WARNING_THRESHOLD_FIVE_MINUTES] at hle
      · exact absurd hle (not_le.mpr hlt)
    refine ⟨"The estimated waiting time to bridge is "
        ++ secondsToReadableTime t ++ ".", ?_, ?_,
      "The estimated waiting time to bridge is ", ".", rfl⟩
    · dsimp only [setTxTimeWarning]
      rw [if_neg hcond]
    · exact string_append3_ne_empty _ _ _ (by decide)
  · dsimp only [setTxTimeWarning]
    split_ifs with h
    · rfl
    · exact absurd (Or.inr (by norm_num [WARNING_THRESHOLD_FIVE_MINUTES])) h

/-- C7 witness: at estimate 301 (threshold 300) a non-empty message
containing the readable rendering of 301 seconds is set. -/
theorem setTxTimeWarning_spec_witness :
    ∃ m,
      (setTxTimeWarning initialPortalState
          (some 301)).bridgeTransactionData.timeWarning = some m ∧
      m ≠ "" ∧ ∃ pre post, m = pre ++ secondsToReadableTime 301 ++ post :=
  (setTxTimeWarning_spec initialPortalState (some 301)).2.2.1 301 rfl
    (by norm_num [WARNING_THRESHOLD_FIVE_MINUTES])

/-- C8: `setSlippagePercentage` is idempotent, and after the call both the
active slippage and `nonStableSlippage` equal the argument. -/
theorem setSlippagePercentage_spec (s : PortalState) (x : ℚ) :
    setSlippagePercentage (setSlippagePercentage s x) x =
      setSlippagePercentage s x ∧
    (setSlippagePercentage s x).bridgeTransactionData.slippagePercentage =
      x ∧
    (setSlippagePercentage s x).nonStableSlippage = x :=
  ⟨rfl, rfl, rfl⟩

/-- C9: `hasUserUpdatedTokens` is a one-way latch: it starts false,
`setHasUserUpdatedTokens` raises it, and no action of the store ever
takes it from true back to false. -/
theorem hasUserUpdatedTokens_latch :
    initialPortalState.hasUserUpdatedTokens = false ∧
    (∀ s : PortalState,
      (Action.setHasUserUpdatedTokens.apply s).hasUserUpdatedTokens =
        true) ∧
    (∀ (a : Action) (s : PortalState), s.hasUserUpdatedTokens = true →
      (a.apply s).hasUserUpdatedTokens = true) := by
  refine ⟨rfl, fun s => rfl, fun a s h => ?_⟩
  rw [hasUserUpdatedTokens_apply, h, Bool.true_or]

/-- C9 witness: a state with the latch raised keeps it raised across a
further action. -/
theorem hasUserUpdatedTokens_latch_witness :
    ((Action.setSlippagePercentage 2).apply
        { initialPortalState with
          hasUserUpdatedTokens := true }).hasUserUpdatedTokens = true :=
  hasUserUpdatedTokens_latch.2.2 (Action.setSlippagePercentage 2)
    { initialPortalState with hasUserUpdatedTokens := true } rfl

/-- C10: `setSourceToken` and `setDestinationToken` leave
`hasUserUpdatedTokens` and `lastChanged` unchanged, and across the whole
action alphabet `hasUserUpdatedTokens` only moves by or-ing in
`Action.latchesTokens`, which singles out `swapSourceDestination` and
`setHasUserUpdatedTokens`. -/
theorem setToken_frame (s : PortalState) (t : TokenInfo) :
    (setSourceToken s t).hasUserUpdatedTokens = s.hasUserUpdatedTokens ∧
    (setSourceToken s t).lastChanged = s.lastChanged ∧
    (setDestinationToken s t).hasUserUpdatedTokens =
      s.hasUserUpdatedTokens ∧
    (setDestinationToken s t).lastChanged = s.lastChanged ∧
    (∀ (a : Action) (s2 : PortalState),
      (a.apply s2).hasUserUpdatedTokens =
        (s2.hasUserUpdatedTokens || a.latchesTokens)) := by
  refine ⟨?_, ?_, ?_, ?_, hasUserUpdatedTokens_apply⟩ <;>
    simp only [setSourceToken, setDestinationToken,
      setSlippageForStableSwap_eq, setSlippageForNonStableSwap_eq] <;>
    split_ifs <;> rfl

end PortalStoreModel
